import Mathlib

/-!
Verification of the coffee-procurement optimization core of this repository.

The development shallowly embeds the planning pipeline:

* `Solver` — `back/api/solver.py`: the baseline single-office MIP
  (`SolverInput`, the constraint system added by `solve`, `estimate_demand`).
* `SolverV2` — `back/api/v2/solver_v2.py`: the advanced multi-distributor /
  multi-building / tiered-pricing MIP.
* `SolverV2C` — `back/api/v2/solver_v2_correction.py`: the advanced MIP with
  bounded, priced corrections of a previously committed plan.
* `Service` — `back/api/services/optimization.py`: the service that runs the
  baseline solver and stores results.
* `Router` — `back/api/routers/optimization.py`: the POST handler, modelled at
  the level of Python keyword-argument binding.

Numbers are embedded as exact rationals (`ℚ`): the MILPs are stated over the
reals and every claim checked here is either an exact identity or an identity
up to an explicit `1e-6` tolerance, so exact arithmetic is faithful.  Sparse
Python dicts read with `.get(key, 0.0)` are embedded as total functions that
are zero outside the dict's support.  The MIP engine itself (CPLEX) is not
re-implemented: feasibility of an assignment is embedded as the conjunction of
exactly the constraints the source adds to the model, and the solver driver is
parameterised by the engine's outcome (a solution, or no solution with a
status), which is all the surrounding code observes.
-/

namespace Solver

/-- Embeds `solver.estimate_demand` (solver.py, lines 149-154):
`num_workers * 0.25 * 1.2 ** num_conferences`, embedded exactly over `ℚ`
(`0.25 = 25/100`, `1.2 = 12/10`). -/
def estimate_demand (num_workers num_conferences : ℕ) : ℚ :=
  let base_demand_per_worker_kg : ℚ := 25 / 100
  let conference_multiplier : ℚ := (12 / 10) ^ num_conferences
  num_workers * base_demand_per_worker_kg * conference_multiplier

/-- Embeds `solver.SolverInput` (solver.py, lines 61-81): parameters of the baseline
7-day inventory/ordering problem. -/
structure SolverInput where
  V_max : ℚ
  P : List ℚ
  C : ℚ
  D : List ℚ
  I0 : ℚ
  alpha : ℚ := 1 / 10
  M : ℚ := 100000
  T : ℕ := 7

/-- An assignment of the decision variables `x`, `I`, `y` of the baseline
model (`solve`, solver.py lines 113-116), as day-indexed functions. -/
structure SolutionV1 where
  x : ℕ → ℚ
  I : ℕ → ℚ
  y : ℕ → ℚ

/-- List indexing with default `0`, the shape under which every daily array of
the model is read once its length was validated. -/
def get1 (xs : List ℚ) (i : ℕ) : ℚ := xs.getD i 0

/-- Feasibility for the baseline model: the conjunction of exactly the
constraints `solve` adds (solver.py lines 113-134) together with the variable
domains (`continuous_var_list lb=0`, `binary_var_list`):

* `x_t ≥ 0`, `I_t ≥ 0`, `y_t ∈ {0,1}`;
* inventory balance `I_0 = (1-α)·I0 + x_0 − D_0` and
  `I_t = (1-α)·I_{t-1} + x_t − D_t` for `t ≥ 1`;
* capacity `I_t ≤ V_max`;
* linking `x_t ≤ M·y_t`. -/
def FeasibleV1 (inp : SolverInput) (a : SolutionV1) : Prop :=
  (∀ t < inp.T, 0 ≤ a.x t ∧ 0 ≤ a.I t ∧ (a.y t = 0 ∨ a.y t = 1)) ∧
  (∀ t < inp.T,
    a.I t = (1 - inp.alpha) * (if t = 0 then inp.I0 else a.I (t - 1)) + a.x t - get1 inp.D t) ∧
  (∀ t < inp.T, a.I t ≤ inp.V_max) ∧
  (∀ t < inp.T, a.x t ≤ inp.M * a.y t)

instance (inp : SolverInput) (a : SolutionV1) : Decidable (FeasibleV1 inp a) := by
  unfold FeasibleV1; infer_instance

end Solver

namespace SolverV2

/-- Embeds `solver_v2.SolverInputV2` (solver_v2.py, lines 13-53): parameters of the
advanced model.  Daily arrays are lists exactly as in the source; the sparse
dict `x_hist : (d, b, tau, l) -> kg`, read in the source only through
`inp.x_hist.get(key, 0.0)`, is embedded as a total function that is `0`
outside the dict's support. -/
structure SolverInputV2 where
  T : ℕ
  D : ℕ
  B : ℕ
  L : ℕ
  V_max : List ℚ
  Q : List ℚ
  P_0 : List (List ℚ)
  P : List (List (List ℚ))
  C_fix : List (List ℚ)
  Demand : List (List ℚ)
  I_0 : List ℚ
  alpha : ℚ
  S : List (List ℚ)
  X : List (List ℕ)
  x_hist : ℕ → ℕ → ℤ → ℕ → ℚ

/-- Doubly nested list indexing with default `0`. -/
def get2 (xs : List (List ℚ)) (i j : ℕ) : ℚ := (xs.getD i []).getD j 0

/-- Doubly nested indexing into the integer lead-time table `X`. -/
def getX (xs : List (List ℕ)) (i j : ℕ) : ℕ := (xs.getD i []).getD j 0

/-- An assignment of the decision variables of the advanced model
(solver_v2.py, lines 109-144), as index-functions `(d, b, t[, l]) ↦ value`. -/
structure SolutionV2 where
  x_0 : ℕ → ℕ → ℕ → ℚ
  x : ℕ → ℕ → ℕ → ℕ → ℚ
  I : ℕ → ℕ → ℚ
  y_order : ℕ → ℕ → ℕ → ℚ
  y_threshold : ℕ → ℕ → ℕ → ℕ → ℚ

/-- The validation block of `solver_v2.solve` (solver_v2.py, lines 95-105):
a sequence of `assert` statements that check only the shapes (lengths) of the
input arrays.  `True` means every assert passes and the model is built. -/
def validate_v2 (inp : SolverInputV2) : Bool :=
  inp.V_max.length = inp.B &&
  inp.Q.length = inp.L + 1 &&
  (inp.P_0.length = inp.D && (List.range inp.D).all fun d => (inp.P_0.getD d []).length = inp.T) &&
  (inp.P.length = inp.D && (List.range inp.D).all fun d => (inp.P.getD d []).length = inp.T) &&
  ((List.range inp.D).all fun d => (List.range inp.T).all fun t =>
    ((inp.P.getD d []).getD t []).length = inp.L) &&
  (inp.C_fix.length = inp.D && (List.range inp.D).all fun d => (inp.C_fix.getD d []).length = inp.B) &&
  (inp.Demand.length = inp.B && (List.range inp.B).all fun b => (inp.Demand.getD b []).length = inp.T) &&
  inp.I_0.length = inp.B &&
  (inp.S.length = inp.D && (List.range inp.D).all fun d => (inp.S.getD d []).length = inp.T) &&
  (inp.X.length = inp.D && (List.range inp.D).all fun d => (inp.X.getD d []).length = inp.B)

/-- Planned deliveries arriving at building `b` on day `t` (solver_v2.py,
lines 168-172): every in-horizon placement day `tau` with
`tau + X[d][b] = t`, over both the below-threshold and the tier variables. -/
def deliveriesToday (inp : SolverInputV2) (a : SolutionV2) (b t : ℕ) : ℚ :=
  (Finset.range inp.D).sum (fun d => (Finset.range inp.T).sum (fun tau =>
    if tau + getX inp.X d b = t then a.x_0 d b tau else 0)) +
  (Finset.range inp.D).sum (fun d => (Finset.range inp.T).sum (fun tau =>
    (Finset.Icc 1 inp.L).sum (fun l =>
      if tau + getX inp.X d b = t then a.x d b tau l else 0)))

/-- Historical orders arriving at building `b` on day `t` (solver_v2.py,
lines 175-181): the source scans tier levels `l ∈ range(1, L+1)` and
historical placement days `tau ∈ range(-100, 0)`, keeping the keys with
`tau + X[d][b] = t`. -/
def histDeliveries (inp : SolverInputV2) (b t : ℕ) : ℚ :=
  (Finset.range inp.D).sum (fun d =>
    (Finset.Icc 1 inp.L).sum (fun l =>
      (Finset.Icc (-100 : ℤ) (-1)).sum (fun tau =>
        if tau + (getX inp.X d b : ℤ) = (t : ℤ) then inp.x_hist d b tau l else 0)))

/-- The big-M constant of the last-tier bound (solver_v2.py, line 235):
`max(inp.S[d][t] for d in range(D) for t in range(T))` — the generator
variables shadow the loop variables, so this is the global maximum supply. -/
def Smax (inp : SolverInputV2) : ℚ :=
  match ((List.range inp.D).map (fun d =>
      (List.range inp.T).map (fun t => get2 inp.S d t))).flatten with
  | [] => 0
  | q :: qs => qs.foldl max q

/-- Variable domains of the advanced model: `continuous_var(lb=0)` for
`x_0`, `x`, `I`, and `binary_var` for `y_order`, `y_threshold`. -/
def VarBoundsV2 (inp : SolverInputV2) (a : SolutionV2) : Prop :=
  ∀ d < inp.D, ∀ b < inp.B, ∀ t < inp.T,
    0 ≤ a.x_0 d b t ∧ 0 ≤ a.I b t ∧
    (a.y_order d b t = 0 ∨ a.y_order d b t = 1) ∧
    ∀ l ∈ Finset.Icc 1 inp.L,
      0 ≤ a.x d b t l ∧ (a.y_threshold d b t l = 0 ∨ a.y_threshold d b t l = 1)

/-- Constraint 1 of the advanced model (solver_v2.py, lines 164-194):
inventory balance with lead times and historical arrivals. -/
def InvBalanceV2 (inp : SolverInputV2) (a : SolutionV2) : Prop :=
  ∀ b < inp.B, ∀ t < inp.T,
    a.I b t = (1 - inp.alpha) * (if t = 0 then inp.I_0.getD b 0 else a.I b (t - 1)) +
      deliveriesToday inp a b t + histDeliveries inp b t - get2 inp.Demand b t

/-- Constraint 2 (solver_v2.py, lines 197-199): warehouse capacity. -/
def CapacityV2 (inp : SolverInputV2) (a : SolutionV2) : Prop :=
  ∀ b < inp.B, ∀ t < inp.T, a.I b t ≤ inp.V_max.getD b 0

/-- Constraint 3 (solver_v2.py, lines 202-205): link the below-threshold
amount to the binary order indicator, `x_0 ≤ S[d][t] · y_order`. -/
def OrderLinkV2 (inp : SolverInputV2) (a : SolutionV2) : Prop :=
  ∀ d < inp.D, ∀ b < inp.B, ∀ t < inp.T,
    a.x_0 d b t ≤ get2 inp.S d t * a.y_order d b t

/-- Constraint 4 (solver_v2.py, lines 208-212): per-distributor per-day
supply cap over all buildings and tiers. -/
def SupplyCapV2 (inp : SolverInputV2) (a : SolutionV2) : Prop :=
  ∀ d < inp.D, ∀ t < inp.T,
    (Finset.range inp.B).sum (fun b => a.x_0 d b t) +
      (Finset.range inp.B).sum (fun b => (Finset.Icc 1 inp.L).sum (fun l => a.x d b t l))
      ≤ get2 inp.S d t

/-- Constraint 5 (solver_v2.py, lines 217-245): threshold linking, tier
bucket bounds, and staircase activation, exactly as the source loops add
them (`for l in range(1, L)` is `l ∈ Icc 1 (L-1)`). -/
def ThresholdConsV2 (inp : SolverInputV2) (a : SolutionV2) : Prop :=
  ∀ d < inp.D, ∀ b < inp.B, ∀ t < inp.T,
    (∀ l ∈ Finset.Icc 1 inp.L, a.y_threshold d b t l ≤ a.y_order d b t) ∧
    a.x_0 d b t ≤ Solver.get1 inp.Q 1 ∧
    (∀ l ∈ Finset.Icc 1 (inp.L - 1),
      a.x d b t l ≤ (Solver.get1 inp.Q (l + 1) - Solver.get1 inp.Q l) * a.y_threshold d b t l) ∧
    a.x d b t inp.L ≤ Smax inp * a.y_threshold d b t inp.L ∧
    a.x_0 d b t ≥ Solver.get1 inp.Q 1 * a.y_threshold d b t 1 ∧
    (∀ l ∈ Finset.Icc 1 (inp.L - 1),
      a.x d b t l ≥ (Solver.get1 inp.Q (l + 1) - Solver.get1 inp.Q l) * a.y_threshold d b t (l + 1))

/-- Feasibility for the advanced model: the conjunction of the variable
domains and all constraints `solver_v2.solve` adds (lines 109-245). -/
def FeasibleV2 (inp : SolverInputV2) (a : SolutionV2) : Prop :=
  VarBoundsV2 inp a ∧ InvBalanceV2 inp a ∧ CapacityV2 inp a ∧
    OrderLinkV2 inp a ∧ SupplyCapV2 inp a ∧ ThresholdConsV2 inp a

instance (inp : SolverInputV2) (a : SolutionV2) : Decidable (VarBoundsV2 inp a) := by
  unfold VarBoundsV2; infer_instance

instance (inp : SolverInputV2) (a : SolutionV2) : Decidable (InvBalanceV2 inp a) := by
  unfold InvBalanceV2; infer_instance

instance (inp : SolverInputV2) (a : SolutionV2) : Decidable (CapacityV2 inp a) := by
  unfold CapacityV2; infer_instance

instance (inp : SolverInputV2) (a : SolutionV2) : Decidable (OrderLinkV2 inp a) := by
  unfold OrderLinkV2; infer_instance

instance (inp : SolverInputV2) (a : SolutionV2) : Decidable (SupplyCapV2 inp a) := by
  unfold SupplyCapV2; infer_instance

instance (inp : SolverInputV2) (a : SolutionV2) : Decidable (ThresholdConsV2 inp a) := by
  unfold ThresholdConsV2; infer_instance

instance (inp : SolverInputV2) (a : SolutionV2) : Decidable (FeasibleV2 inp a) := by
  unfold FeasibleV2; infer_instance

end SolverV2

namespace SolverV2C

/-- Embeds `solver_v2_correction.SolverInputV2Correction` (solver_v2_correction.py,
lines 15-67).  The sparse dicts `x_hist : (d,b,tau) -> kg` (no tier index in
this model), `x_kor_0 : (d,b,t) -> kg` and `x_kor : (d,b,t,l) -> kg`, each
read only through `.get(key, 0.0)`, are embedded as total functions that are
`0` outside the dict's support (missing prior-plan entries default to 0). -/
structure SolverInputV2C where
  T : ℕ
  D : ℕ
  B : ℕ
  L : ℕ
  V_max : List ℚ
  Q : List ℚ
  P_0 : List (List ℚ)
  P : List (List (List ℚ))
  C_fix : List (List ℚ)
  Demand : List (List ℚ)
  I_0 : List ℚ
  alpha : ℚ
  S : List (List ℚ)
  X : List (List ℕ)
  x_hist : ℕ → ℕ → ℤ → ℚ
  x_kor_0 : ℕ → ℕ → ℕ → ℚ
  x_kor : ℕ → ℕ → ℕ → ℕ → ℚ
  K : List (List (List ℚ))
  R_max : List (List (List ℚ))

/-- Triply nested list indexing with default `0` (for `K` and `R_max`). -/
def get3 (xs : List (List (List ℚ))) (i j k : ℕ) : ℚ :=
  ((xs.getD i []).getD j []).getD k 0

/-- An assignment of the decision variables of the correction model
(solver_v2_correction.py, lines 139-205). -/
structure SolutionV2C where
  x_0 : ℕ → ℕ → ℕ → ℚ
  x : ℕ → ℕ → ℕ → ℕ → ℚ
  r_plus_0 : ℕ → ℕ → ℕ → ℚ
  r_minus_0 : ℕ → ℕ → ℕ → ℚ
  r_plus : ℕ → ℕ → ℕ → ℕ → ℚ
  r_minus : ℕ → ℕ → ℕ → ℕ → ℚ
  I : ℕ → ℕ → ℚ
  y_order : ℕ → ℕ → ℕ → ℚ
  y_threshold : ℕ → ℕ → ℕ → ℕ → ℚ

/-- Planned deliveries arriving at building `b` on day `t`
(solver_v2_correction.py, lines 269-273). -/
def deliveriesTodayC (inp : SolverInputV2C) (a : SolutionV2C) (b t : ℕ) : ℚ :=
  (Finset.range inp.D).sum (fun d => (Finset.range inp.T).sum (fun tau =>
    if tau + SolverV2.getX inp.X d b = t then a.x_0 d b tau else 0)) +
  (Finset.range inp.D).sum (fun d => (Finset.range inp.T).sum (fun tau =>
    (Finset.Icc 1 inp.L).sum (fun l =>
      if tau + SolverV2.getX inp.X d b = t then a.x d b tau l else 0)))

/-- Historical orders arriving at building `b` on day `t`
(solver_v2_correction.py, lines 276-278): the source scans placement days
`tau ∈ range(-100, 0)` and keeps the keys with `tau + X[d][b] = t`. -/
def histDeliveriesC (inp : SolverInputV2C) (b t : ℕ) : ℚ :=
  (Finset.range inp.D).sum (fun d =>
    (Finset.Icc (-100 : ℤ) (-1)).sum (fun tau =>
      if tau + (SolverV2.getX inp.X d b : ℤ) = (t : ℤ) then inp.x_hist d b tau else 0))

/-- The big-M constant of the last-tier bound (solver_v2_correction.py,
line 325), the global maximum supply (the generator shadows the loop
variables, as in `solver_v2`). -/
def SmaxC (inp : SolverInputV2C) : ℚ :=
  match ((List.range inp.D).map (fun d =>
      (List.range inp.T).map (fun t => SolverV2.get2 inp.S d t))).flatten with
  | [] => 0
  | q :: qs => qs.foldl max q

/-- Variable domains of the correction model: `continuous_var(lb=0)` for
`x_0`, `x`, the four correction variables and `I`; `binary_var` for
`y_order`, `y_threshold`. -/
def VarBoundsV2C (inp : SolverInputV2C) (a : SolutionV2C) : Prop :=
  ∀ d < inp.D, ∀ b < inp.B, ∀ t < inp.T,
    0 ≤ a.x_0 d b t ∧ 0 ≤ a.r_plus_0 d b t ∧ 0 ≤ a.r_minus_0 d b t ∧ 0 ≤ a.I b t ∧
    (a.y_order d b t = 0 ∨ a.y_order d b t = 1) ∧
    ∀ l ∈ Finset.Icc 1 inp.L,
      0 ≤ a.x d b t l ∧ 0 ≤ a.r_plus d b t l ∧ 0 ≤ a.r_minus d b t l ∧
      (a.y_threshold d b t l = 0 ∨ a.y_threshold d b t l = 1)

/-- Correction linkage (solver_v2_correction.py, lines 240-254):
`x_0 = x_kor_0.get((d,b,t), 0) + r⁺₀ − r⁻₀` and, for every tier `l ∈ 1..L`,
`x_l = x_kor.get((d,b,t,l), 0) + r⁺_l − r⁻_l`. -/
def CorrectionLinkV2C (inp : SolverInputV2C) (a : SolutionV2C) : Prop :=
  ∀ d < inp.D, ∀ b < inp.B, ∀ t < inp.T,
    a.x_0 d b t = inp.x_kor_0 d b t + a.r_plus_0 d b t - a.r_minus_0 d b t ∧
    ∀ l ∈ Finset.Icc 1 inp.L,
      a.x d b t l = inp.x_kor d b t l + a.r_plus d b t l - a.r_minus d b t l

/-- Correction cap (solver_v2_correction.py, lines 258-263):
`r⁺₀ + r⁻₀ + Σ_{l=1..L} (r⁺_l + r⁻_l) ≤ R_max[d][b][t]`. -/
def CorrectionCapV2C (inp : SolverInputV2C) (a : SolutionV2C) : Prop :=
  ∀ d < inp.D, ∀ b < inp.B, ∀ t < inp.T,
    a.r_plus_0 d b t + a.r_minus_0 d b t +
      (Finset.Icc 1 inp.L).sum (fun l => a.r_plus d b t l + a.r_minus d b t l)
      ≤ get3 inp.R_max d b t

/-- Inventory balance of the correction model (solver_v2_correction.py,
lines 266-289). -/
def InvBalanceV2C (inp : SolverInputV2C) (a : SolutionV2C) : Prop :=
  ∀ b < inp.B, ∀ t < inp.T,
    a.I b t = (1 - inp.alpha) * (if t = 0 then inp.I_0.getD b 0 else a.I b (t - 1)) +
      deliveriesTodayC inp a b t + histDeliveriesC inp b t - SolverV2.get2 inp.Demand b t

/-- Capacity, order linking, supply cap and threshold constraints of the
correction model (solver_v2_correction.py, lines 292-332), identical in form
to the ones of `solver_v2`. -/
def BaseConsV2C (inp : SolverInputV2C) (a : SolutionV2C) : Prop :=
  (∀ b < inp.B, ∀ t < inp.T, a.I b t ≤ inp.V_max.getD b 0) ∧
  (∀ d < inp.D, ∀ b < inp.B, ∀ t < inp.T,
    a.x_0 d b t ≤ SolverV2.get2 inp.S d t * a.y_order d b t) ∧
  (∀ d < inp.D, ∀ t < inp.T,
    (Finset.range inp.B).sum (fun b => a.x_0 d b t) +
      (Finset.range inp.B).sum (fun b => (Finset.Icc 1 inp.L).sum (fun l => a.x d b t l))
      ≤ SolverV2.get2 inp.S d t) ∧
  (∀ d < inp.D, ∀ b < inp.B, ∀ t < inp.T,
    (∀ l ∈ Finset.Icc 1 inp.L, a.y_threshold d b t l ≤ a.y_order d b t) ∧
    a.x_0 d b t ≤ Solver.get1 inp.Q 1 ∧
    (∀ l ∈ Finset.Icc 1 (inp.L - 1),
      a.x d b t l ≤ (Solver.get1 inp.Q (l + 1) - Solver.get1 inp.Q l) * a.y_threshold d b t l) ∧
    a.x d b t inp.L ≤ SmaxC inp * a.y_threshold d b t inp.L ∧
    a.x_0 d b t ≥ Solver.get1 inp.Q 1 * a.y_threshold d b t 1 ∧
    (∀ l ∈ Finset.Icc 1 (inp.L - 1),
      a.x d b t l ≥ (Solver.get1 inp.Q (l + 1) - Solver.get1 inp.Q l) * a.y_threshold d b t (l + 1)))

/-- Feasibility for the correction model: variable domains plus every
constraint `solver_v2_correction.solve` adds (lines 139-332). -/
def FeasibleV2C (inp : SolverInputV2C) (a : SolutionV2C) : Prop :=
  VarBoundsV2C inp a ∧ CorrectionLinkV2C inp a ∧ CorrectionCapV2C inp a ∧
    InvBalanceV2C inp a ∧ BaseConsV2C inp a

end SolverV2C

namespace Service

/-- The Python exceptions that the optimization service's control flow can
surface: `ValueError` (solver.py line 109, services/optimization.py line 68),
`SolverFail` (solver.py line 139), `AttributeError` (attribute access on a
`dict`), and `TypeError` (keyword-argument binding). -/
inductive PyExc where
  | valueError (msg : String)
  | solverFail (msg : String)
  | attributeError (attr : String)
  | typeError (msg : String)
deriving DecidableEq

/-- The runtime value returned by `solver.solve` on success.  In the source
`SolverOutput` is declared as a `TypedDict` (solver.py lines 84-96), so at
runtime it is a plain Python `dict` with the string keys `x`, `I`, `y` and
`objective_value`; this structure records those entries. -/
structure SolverOutput where
  x : List ℚ
  I : List ℚ
  y : List ℤ
  objective_value : ℚ
deriving DecidableEq

/-- What the MIP engine (`m.solve()` in docplex) yields for the built model:
either a primal solution, or `None` together with the engine's solve status
(e.g. `JobSolveStatus.INFEASIBLE_SOLUTION`).  The engine itself is external
to the repository, so the driver is embedded parametrically in this
outcome. -/
inductive SolveOracle where
  | solution (out : SolverOutput)
  | noSolution (status : String)

/-- Embeds `solver.solve` (solver.py lines 102-146) as observed by its callers:
it first checks `len(P) == T and len(D) == T`, raising `ValueError`
otherwise; then builds the model and calls the engine; if the engine returns
no solution it raises `SolverFail` with the message
`"Solver failed to return a solution. Status: <status>"`; otherwise it
returns the `SolverOutput` dict. -/
def solve (inp : Solver.SolverInput) (oracle : SolveOracle) : Except PyExc SolverOutput :=
  if inp.P.length = inp.T ∧ inp.D.length = inp.T then
    match oracle with
    | .solution out => .ok out
    | .noSolution status =>
        .error (.solverFail ("Solver failed to return a solution. Status: " ++ status))
  else
    .error (.valueError "Length of P and D must equal T")

/-- The office row read by the service (`models/office.py`): storage capacity
and daily loss rate. -/
structure Office where
  max_storage_capacity : ℚ
  daily_loss_rate : ℚ

/-- The parameters `OptimizationService.run_optimization` receives
(services/optimization.py lines 37-48). -/
structure BaselineRequest where
  office_id : ℕ
  planning_horizon_days : ℕ
  initial_inventory : ℚ
  purchase_costs_daily : List ℚ
  transport_cost : ℚ
  num_workers_daily : List ℕ
  num_conferences_daily : List ℕ
  is_correction_mode : Bool

/-- Models an `Order` row as `_create_orders_from_result` would build it
(services/optimization.py lines 152-171). -/
structure Order where
  day_idx : ℕ
  quantity_kg : ℚ
  unit_price : ℚ
  transport_cost : ℚ
  total_cost : ℚ
deriving DecidableEq

/-- Models an `InventorySnapshot` row as `_create_inventory_snapshots` would build
it (services/optimization.py lines 188-210). -/
structure Snapshot where
  day_idx : ℕ
  inventory_level : ℚ
  demand_fulfilled : ℚ
  loss_amount : ℚ
  deliveries_received : ℚ
deriving DecidableEq

/-- The observable outcome of `run_optimization`:
either it returns an `OptimizationRequest` persisted with the given
`solver_status` together with the orders and snapshots persisted alongside
it, or a Python exception escapes the method uncaught. -/
inductive RunResult where
  | stored (solver_status : String) (orders : List Order) (snapshots : List Snapshot)
  | uncaught (e : PyExc)
deriving DecidableEq

/-- Embeds `OptimizationService.run_optimization` (services/optimization.py,
lines 37-139), for an office that exists.  It estimates demands, builds the
`SolverInput`, and calls `solve` inside `try/except SolverFail`:

* if `solve` raises `SolverFail`, the handler (lines 107-114) stores the
  exception text as `solver_status`, saves the failed request and returns it
  — with no orders and no snapshots;
* a `ValueError` from `solve` is not a `SolverFail`, so it escapes;
* if `solve` returns, line 103 sets `solver_status = "OPTIMAL"` on the
  still-unsaved request, and line 104 then evaluates
  `result.objective_value`.  `result` is a `SolverOutput`, declared as a
  `TypedDict`, hence at runtime a plain `dict`; attribute access on a `dict`
  raises `AttributeError` (the same value is correctly subscripted as
  `solver_output["x"]` by `generate_predictions` in solver.py).
  `AttributeError` is not caught by `except SolverFail`, so it escapes
  before `optimization_repo.create` (line 117) runs: the request is never
  stored and no orders or snapshots are created on the success path. -/
def run_optimization (office : Office) (req : BaselineRequest)
    (oracle : SolveOracle) : RunResult :=
  let demands := (req.num_workers_daily.zip req.num_conferences_daily).map
    (fun wc => Solver.estimate_demand wc.1 wc.2)
  let solver_input : Solver.SolverInput :=
    { V_max := office.max_storage_capacity
      P := req.purchase_costs_daily
      C := req.transport_cost
      D := demands
      I0 := req.initial_inventory
      alpha := office.daily_loss_rate
      M := 100000
      T := req.planning_horizon_days }
  match solve solver_input oracle with
  | .error (.solverFail msg) => .stored msg [] []
  | .error e => .uncaught e
  | .ok _result => .uncaught (.attributeError "objective_value")

end Service

namespace Router

/-- The keyword-bindable parameter names of
`OptimizationService.run_optimization` (services/optimization.py,
lines 37-48), `self` excluded. -/
def run_optimization_params : List String :=
  ["office_id", "planning_horizon_start", "planning_horizon_days",
   "initial_inventory", "purchase_costs_daily", "transport_cost",
   "num_workers_daily", "num_conferences_daily", "is_correction_mode"]

/-- The keyword names used at the call site inside `create_optimization`
(routers/optimization.py, lines 43-53). -/
def create_optimization_call_kwargs : List String :=
  ["office_id", "horizon_start", "horizon_days", "initial_inventory",
   "purchase_costs", "transport_cost", "num_workers", "num_conferences",
   "is_correction"]

/-- The keywords of a call that the callee's signature does not declare.
Python rejects a call carrying any such keyword with `TypeError` before the
function body starts executing. -/
def unexpected_kwargs (params kwargs : List String) : List String :=
  kwargs.filter (fun k => !(params.contains k))

/-- Python keyword-argument binding for a call written purely with keyword
arguments: if some keyword is not among the declared parameters, the call
raises `TypeError` naming it, and the body never runs. -/
def bind_kwargs (params kwargs : List String) : Except Service.PyExc Unit :=
  match unexpected_kwargs params kwargs with
  | [] => .ok ()
  | k :: _ =>
      .error (.typeError ("run_optimization() got an unexpected keyword argument " ++ k))

/-- The observable outcome of the POST `/optimization/requests` handler:
a successful plan response, an `HTTPException`, or an uncaught Python
exception. -/
inductive HandlerOutcome where
  | response (solver_status : String)
  | httpError (code : ℕ) (detail : String)
  | uncaught (e : Service.PyExc)
deriving DecidableEq

/-- Embeds `create_optimization` (routers/optimization.py, lines 26-60), for an
authorized, schema-valid body.  The handler calls
`optimization_service.run_optimization(...)` with the keyword names of
`create_optimization_call_kwargs`; the call is inside
`try/except ValueError` which converts `ValueError` to HTTP 400.  `body`
abstracts everything that would happen if the keywords did bind (running the
method, building and solving the model, shaping the response): keyword
binding happens first, so on a binding `TypeError` none of it runs, and
`TypeError` is not a `ValueError`, so it escapes the handler. -/
def create_optimization (body : Unit → HandlerOutcome) : HandlerOutcome :=
  match bind_kwargs run_optimization_params create_optimization_call_kwargs with
  | .ok _ => body ()
  | .error (.valueError msg) => .httpError 400 msg
  | .error e => .uncaught e

end Router

namespace SpecModel

/-- Modelled from the spec (§4.3 constraint 1 and §8 open question (b)):
`Arrivals_{b,t}` includes, for every distributor `d`, tier `l` and every
historical placement day `τ < 0` with `τ + X_{d,b} = t`, the committed kg of
`x_hist` — with no lower bound on how far in the past `τ` lies.  Since `τ`
is determined by `τ = t − X_{d,b}`, this is the sum below.  It is the
comparison point for the windowed scan the source performs. -/
def histArrivalsSpec (inp : SolverV2.SolverInputV2) (b t : ℕ) : ℚ :=
  (Finset.range inp.D).sum fun d =>
    (Finset.Icc 1 inp.L).sum fun l =>
      if (t : ℤ) - (SolverV2.getX inp.X d b : ℤ) < 0 then
        inp.x_hist d b ((t : ℤ) - (SolverV2.getX inp.X d b : ℤ)) l
      else 0

/-- Modelled from the spec, the same unbounded historical-arrival sum for the
correction model, whose `x_hist` is keyed `(d, b, τ)`. -/
def histArrivalsSpecC (inp : SolverV2C.SolverInputV2C) (bc tc : ℕ) : ℚ :=
  (Finset.range inp.D).sum fun d =>
    if (tc : ℤ) - (SolverV2.getX inp.X d bc : ℤ) < 0 then
      inp.x_hist d bc ((tc : ℤ) - (SolverV2.getX inp.X d bc : ℤ))
    else 0

end SpecModel

namespace SolverV2

/-- Copy of `inp` with the single historical entry keyed `(d0, b0, t0, 0)` — tier
index 0, the below-threshold tier — set to `v`. -/
def setHistTier0 (inp : SolverInputV2) (d0 b0 : ℕ) (t0 : ℤ) (v : ℚ) : SolverInputV2 :=
  { inp with x_hist := fun d b tau l =>
      if d = d0 ∧ b = b0 ∧ tau = t0 ∧ l = 0 then v else inp.x_hist d b tau l }

end SolverV2

namespace Wit

/-- Concrete office: capacity 150 kg, daily loss 10%. -/
def officeW : Service.Office :=
  { max_storage_capacity := 150, daily_loss_rate := 1 / 10 }

/-- Concrete baseline request with a 1-day horizon and consistent array
lengths. -/
def reqW : Service.BaselineRequest :=
  { office_id := 1
    planning_horizon_days := 1
    initial_inventory := 40
    purchase_costs_daily := [10]
    transport_cost := 100
    num_workers_daily := [4]
    num_conferences_daily := [0]
    is_correction_mode := false }

/-- A concrete solver solution for `reqW` (the engine returned a primal). -/
def outW : Service.SolverOutput :=
  { x := [0], I := [35], y := [0], objective_value := 0 }

/-- Concrete baseline instance: `T = 1`, no loss, demand 1, stock 2. -/
def inpW1 : Solver.SolverInput :=
  { V_max := 10, P := [1], C := 0, D := [1], I0 := 2, alpha := 0, M := 100000, T := 1 }

/-- Feasible assignment for `inpW1`: order nothing, end day 0 with 1 kg. -/
def aW1 : Solver.SolutionV1 :=
  { x := fun _ => 0, I := fun _ => 1, y := fun _ => 0 }

/-- Concrete advanced instance: one distributor, building, day and tier. -/
def instW : SolverV2.SolverInputV2 :=
  { T := 1, D := 1, B := 1, L := 1
    V_max := [10], Q := [0, 5]
    P_0 := [[1]], P := [[[1]]]
    C_fix := [[0]], Demand := [[1]]
    I_0 := [2], alpha := 0
    S := [[10]], X := [[0]]
    x_hist := fun _ _ _ _ => 0 }

/-- Feasible assignment for `instW`: order nothing, end day 0 with 1 kg. -/
def solW : SolverV2.SolutionV2 :=
  { x_0 := fun _ _ _ => 0
    x := fun _ _ _ _ => 0
    I := fun _ _ => 1
    y_order := fun _ _ _ => 0
    y_threshold := fun _ _ _ _ => 0 }

/-- Concrete advanced instance for the staircase property: first threshold
`Q_1 = 5`, ample capacity. -/
def instT : SolverV2.SolverInputV2 :=
  { T := 1, D := 1, B := 1, L := 1
    V_max := [20], Q := [0, 5]
    P_0 := [[1]], P := [[[1]]]
    C_fix := [[0]], Demand := [[1]]
    I_0 := [2], alpha := 0
    S := [[10]], X := [[0]]
    x_hist := fun _ _ _ _ => 0 }

/-- Feasible assignment for `instT` that activates threshold 1: order
exactly `Q_1 = 5` kg below-threshold, with `y_order = y_threshold = 1`. -/
def solT : SolverV2.SolutionV2 :=
  { x_0 := fun _ _ _ => 5
    x := fun _ _ _ _ => 0
    I := fun _ _ => 6
    y_order := fun _ _ _ => 1
    y_threshold := fun _ _ _ _ => 1 }

/-- Concrete correction-model instance: all prior-plan entries missing
(defaulting to 0), correction cap 15 kg, correction price 2 PLN/kg. -/
def instC : SolverV2C.SolverInputV2C :=
  { T := 1, D := 1, B := 1, L := 1
    V_max := [10], Q := [0, 5]
    P_0 := [[1]], P := [[[1]]]
    C_fix := [[0]], Demand := [[0]]
    I_0 := [0], alpha := 0
    S := [[10]], X := [[0]]
    x_hist := fun _ _ _ => 0
    x_kor_0 := fun _ _ _ => 0
    x_kor := fun _ _ _ _ => 0
    K := [[[2]]], R_max := [[[15]]] }

/-- Feasible assignment for `instC`: order nothing, correct nothing. -/
def solC : SolverV2C.SolutionV2C :=
  { x_0 := fun _ _ _ => 0
    x := fun _ _ _ _ => 0
    r_plus_0 := fun _ _ _ => 0
    r_minus_0 := fun _ _ _ => 0
    r_plus := fun _ _ _ _ => 0
    r_minus := fun _ _ _ _ => 0
    I := fun _ _ => 0
    y_order := fun _ _ _ => 0
    y_threshold := fun _ _ _ _ => 0 }

/-- Advanced instance whose lead time is 101 days with 5 kg committed at
placement day `τ = −101` on tier 1: the in-transit parcel would arrive
exactly on day 0 of the horizon, but the source's scan window stops at
`τ = −100`. -/
def c4w : SolverV2.SolverInputV2 :=
  { T := 1, D := 1, B := 1, L := 1
    V_max := [10], Q := [0, 5]
    P_0 := [[1]], P := [[[1]]]
    C_fix := [[0]], Demand := [[1]]
    I_0 := [2], alpha := 0
    S := [[10]], X := [[101]]
    x_hist := fun _ _ tau l => if tau = -101 ∧ l = 1 then 5 else 0 }

/-- Advanced instance with lead time 1 and 3 kg committed at `τ = −1` on
tier 1 (inside the scan window). -/
def c4wb : SolverV2.SolverInputV2 :=
  { T := 1, D := 1, B := 1, L := 1
    V_max := [10], Q := [0, 5]
    P_0 := [[1]], P := [[[1]]]
    C_fix := [[0]], Demand := [[1]]
    I_0 := [2], alpha := 0
    S := [[10]], X := [[1]]
    x_hist := fun _ _ tau l => if tau = -1 ∧ l = 1 then 3 else 0 }

/-- Correction-model instance with lead time 1 and 2 kg committed at
`τ = −1` (inside the scan window). -/
def c4wc : SolverV2C.SolverInputV2C :=
  { T := 1, D := 1, B := 1, L := 1
    V_max := [10], Q := [0, 5]
    P_0 := [[1]], P := [[[1]]]
    C_fix := [[0]], Demand := [[0]]
    I_0 := [0], alpha := 0
    S := [[10]], X := [[1]]
    x_hist := fun _ _ tau => if tau = -1 then 2 else 0
    x_kor_0 := fun _ _ _ => 0
    x_kor := fun _ _ _ _ => 0
    K := [[[2]]], R_max := [[[15]]] }

/-- Advanced instance whose thresholds `Q = [0, 5, 5]` are NOT strictly
increasing (`Q_1 = Q_2 = 5`) while every array has the declared shape. -/
def c8w : SolverV2.SolverInputV2 :=
  { T := 1, D := 1, B := 1, L := 2
    V_max := [10], Q := [0, 5, 5]
    P_0 := [[1]], P := [[[1, 1]]]
    C_fix := [[0]], Demand := [[1]]
    I_0 := [2], alpha := 0
    S := [[10]], X := [[0]]
    x_hist := fun _ _ _ _ => 0 }

end Wit

/-- Claim C9: for every non-negative integer worker count `w` and conference count
`c`, `estimate_demand` returns exactly `w · 0.25 · 1.2^c` kilograms (the
spec's `D = w·ρ·μ^c` with defaults `ρ = 1/4`, `μ = 6/5`); as a plain function
of its two arguments it is side-effect-free and yields identical values on
identical inputs — the planning path contains no randomness. -/
theorem c9_estimate_demand_formula (w c : ℕ) :
    Solver.estimate_demand w c = (w : ℚ) * (1 / 4) * ((6 : ℚ) / 5) ^ c ∧
    Solver.estimate_demand w c = Solver.estimate_demand w c := by
  refine ⟨?_, rfl⟩
  unfold Solver.estimate_demand
  norm_num

/-- The historical scan window: over `τ ∈ range(-100, 0)`, the summand with
condition `τ + X = t` has at most one live term, at `τ = t − X` when that
day lies in the window. -/
theorem sum_hist_window (X t : ℕ) (f : ℤ → ℚ) :
    ((Finset.Icc (-100 : ℤ) (-1)).sum fun tau =>
        if tau + (X : ℤ) = (t : ℤ) then f tau else 0) =
      if (t : ℤ) - (X : ℤ) ∈ Finset.Icc (-100 : ℤ) (-1) then f ((t : ℤ) - (X : ℤ)) else 0 := by
  have h : ∀ tau ∈ Finset.Icc (-100 : ℤ) (-1),
      (if tau + (X : ℤ) = (t : ℤ) then f tau else 0) =
        (if tau = (t : ℤ) - (X : ℤ) then f tau else 0) := by
    intro tau _
    exact if_congr (by omega) rfl rfl
  rw [Finset.sum_congr rfl h]
  exact Finset.sum_ite_eq' (Finset.Icc (-100 : ℤ) (-1)) ((t : ℤ) - (X : ℤ)) f

/-- The baseline witness assignment is feasible. -/
theorem inpW1_feasible : Solver.FeasibleV1 Wit.inpW1 Wit.aW1 := by
  have hT : Wit.inpW1.T = 1 := rfl
  refine ⟨?_, ?_, ?_, ?_⟩ <;> intro t ht <;> rw [hT] at ht <;>
    interval_cases t <;> norm_num [Wit.inpW1, Wit.aW1, Solver.get1]

/-- The do-nothing assignment is feasible for `instW`. -/
theorem instW_feasible : SolverV2.FeasibleV2 Wit.instW Wit.solW := by
  have hB : Wit.instW.B = 1 := rfl
  have hT : Wit.instW.T = 1 := rfl
  have hD : Wit.instW.D = 1 := rfl
  have hicc : Finset.Icc 1 (Wit.instW.L - 1) = (∅ : Finset ℕ) := rfl
  have hsm : SolverV2.Smax Wit.instW = 10 := rfl
  refine ⟨?_, ?_, ?_, ?_, ?_, ?_⟩
  · intro d hd b hb t ht
    norm_num [Wit.instW, Wit.solW]
  · intro b hb t ht
    rw [hB] at hb; rw [hT] at ht
    interval_cases b; interval_cases t
    norm_num [SolverV2.deliveriesToday, SolverV2.histDeliveries,
      Wit.instW, Wit.solW, SolverV2.get2, SolverV2.getX, Finset.sum_range_one,
      Finset.Icc_self, Finset.sum_singleton]
  · intro b hb t ht
    rw [hB] at hb
    interval_cases b
    norm_num [Wit.instW, Wit.solW]
  · intro d hd b hb t ht
    norm_num [Wit.instW, Wit.solW, SolverV2.get2]
  · intro d hd t ht
    rw [hD] at hd; rw [hT] at ht
    interval_cases d; interval_cases t
    norm_num [Wit.instW, Wit.solW, SolverV2.get2, Finset.sum_range_one,
      Finset.Icc_self, Finset.sum_singleton]
  · intro d hd b hb t ht
    refine ⟨?_, ?_, ?_, ?_, ?_, ?_⟩ <;>
      norm_num [Wit.instW, Wit.solW, Solver.get1, hicc, hsm]

/-- The threshold-activating assignment is feasible for `instT`. -/
theorem instT_feasible : SolverV2.FeasibleV2 Wit.instT Wit.solT := by
  have hB : Wit.instT.B = 1 := rfl
  have hT : Wit.instT.T = 1 := rfl
  have hD : Wit.instT.D = 1 := rfl
  have hicc : Finset.Icc 1 (Wit.instT.L - 1) = (∅ : Finset ℕ) := rfl
  have hsm : SolverV2.Smax Wit.instT = 10 := rfl
  refine ⟨?_, ?_, ?_, ?_, ?_, ?_⟩
  · intro d hd b hb t ht
    norm_num [Wit.instT, Wit.solT]
  · intro b hb t ht
    rw [hB] at hb; rw [hT] at ht
    interval_cases b; interval_cases t
    norm_num [SolverV2.deliveriesToday, SolverV2.histDeliveries,
      Wit.instT, Wit.solT, SolverV2.get2, SolverV2.getX, Finset.sum_range_one,
      Finset.Icc_self, Finset.sum_singleton]
  · intro b hb t ht
    rw [hB] at hb
    interval_cases b
    norm_num [Wit.instT, Wit.solT]
  · intro d hd b hb t ht
    rw [hD] at hd; rw [hT] at ht
    interval_cases d; interval_cases t
    norm_num [Wit.instT, Wit.solT, SolverV2.get2]
  · intro d hd t ht
    rw [hD] at hd; rw [hT] at ht
    interval_cases d; interval_cases t
    norm_num [Wit.instT, Wit.solT, SolverV2.get2, Finset.sum_range_one,
      Finset.Icc_self, Finset.sum_singleton]
  · intro d hd b hb t ht
    refine ⟨?_, ?_, ?_, ?_, ?_, ?_⟩
    · norm_num [Wit.instT, Wit.solT]
    · norm_num [Wit.instT, Wit.solT, Solver.get1]
    · norm_num [hicc]
    · rw [hsm]
      norm_num [Wit.solT]
    · norm_num [Wit.instT, Wit.solT, Solver.get1]
    · norm_num [hicc]

/-- The do-nothing assignment is feasible for the correction instance
`instC`. -/
theorem instC_feasible : SolverV2C.FeasibleV2C Wit.instC Wit.solC := by
  have hB : Wit.instC.B = 1 := rfl
  have hT : Wit.instC.T = 1 := rfl
  have hD : Wit.instC.D = 1 := rfl
  have hicc : Finset.Icc 1 (Wit.instC.L - 1) = (∅ : Finset ℕ) := rfl
  have hsm : SolverV2C.SmaxC Wit.instC = 10 := rfl
  refine ⟨?_, ?_, ?_, ?_, ?_, ?_, ?_, ?_⟩
  · intro d hd b hb t ht
    norm_num [Wit.instC, Wit.solC]
  · intro d hd b hb t ht
    norm_num [Wit.instC, Wit.solC]
  · intro d hd b hb t ht
    rw [hD] at hd; rw [hB] at hb; rw [hT] at ht
    interval_cases d; interval_cases b; interval_cases t
    norm_num [Wit.instC, Wit.solC, SolverV2C.get3, Finset.Icc_self, Finset.sum_singleton]
  · intro b hb t ht
    rw [hB] at hb; rw [hT] at ht
    interval_cases b; interval_cases t
    norm_num [SolverV2C.deliveriesTodayC, SolverV2C.histDeliveriesC,
      Wit.instC, Wit.solC, SolverV2.get2, SolverV2.getX, Finset.sum_range_one,
      Finset.Icc_self, Finset.sum_singleton]
  · intro b hb t ht
    rw [hB] at hb
    interval_cases b
    norm_num [Wit.instC, Wit.solC]
  · intro d hd b hb t ht
    norm_num [Wit.instC, Wit.solC, SolverV2.get2]
  · intro d hd t ht
    rw [hD] at hd; rw [hT] at ht
    interval_cases d; interval_cases t
    norm_num [Wit.instC, Wit.solC, SolverV2.get2, Finset.sum_range_one,
      Finset.Icc_self, Finset.sum_singleton]
  · intro d hd b hb t ht
    refine ⟨?_, ?_, ?_, ?_, ?_, ?_⟩
    · norm_num [Wit.instC, Wit.solC]
    · norm_num [Wit.instC, Wit.solC, Solver.get1]
    · norm_num [hicc]
    · rw [hsm]
      norm_num [Wit.solC]
    · norm_num [Wit.instC, Wit.solC, Solver.get1]
    · norm_num [hicc]

/-- Claim C1: the claim says that whenever the MIP solver returns a solution,
`run_optimization` returns a stored `OptimizationRequest` with
`solver_status = "OPTIMAL"`, the objective as `total_cost`, recorded solve
time, and orders/snapshots present iff Optimal.  The code does not: at the
concrete request `reqW` on which the engine returns the solution `outW`,
line 104 (`result.objective_value`) raises `AttributeError` — `SolverOutput`
is a `TypedDict`, i.e. a plain `dict` — so the success path never stores or
returns anything. -/
theorem c1_success_path_attribute_error :
    Service.run_optimization Wit.officeW Wit.reqW (.solution Wit.outW) =
      .uncaught (.attributeError "objective_value") := rfl

/-- Claim C2: for every authorized, schema-valid body, `create_optimization` calls
`OptimizationService.run_optimization` with six keyword arguments the method
does not declare, so Python keyword binding raises `TypeError` before any of
the body (`body` — demand estimation, model building, solving, response
shaping) runs, and the handler never produces a successful plan response;
the unexpected keywords are exactly `horizon_start`, `horizon_days`,
`purchase_costs`, `num_workers`, `num_conferences`, `is_correction`. -/
theorem c2_create_optimization_type_error :
    (∀ body : Unit → Router.HandlerOutcome,
      Router.create_optimization body =
        .uncaught (.typeError
          "run_optimization() got an unexpected keyword argument horizon_start")) ∧
    Router.unexpected_kwargs Router.run_optimization_params
        Router.create_optimization_call_kwargs =
      ["horizon_start", "horizon_days", "purchase_costs", "num_workers",
       "num_conferences", "is_correction"] := by
  exact ⟨fun _ => rfl, rfl⟩

/-- Claim C7, counterexample to the claim as stated: when the engine proves the
model infeasible (docplex status `JobSolveStatus.INFEASIBLE_SOLUTION` with
`m.solve()` returning `None`), the stored request's `solver_status` is the
`SolverFail` exception text — not the typed status `Infeasible` the claim
asserts is reported to the caller. -/
theorem c7_counterexample :
    Service.run_optimization Wit.officeW Wit.reqW
        (.noSolution "JobSolveStatus.INFEASIBLE_SOLUTION") =
      .stored "Solver failed to return a solution. Status: JobSolveStatus.INFEASIBLE_SOLUTION"
        [] [] ∧
    ("Solver failed to return a solution. Status: JobSolveStatus.INFEASIBLE_SOLUTION" : String)
      ≠ "Infeasible" := by
  exact ⟨rfl, by decide⟩

/-- Claim C7, amended: when the engine returns no solution (proven infeasibility
included), `solve` raises `SolverFail` whose message embeds the engine
status; `run_optimization` records that message string (not a typed
`Infeasible` status) as `solver_status`, persists the request, and no orders
or inventory snapshots are persisted for it. -/
theorem c7_no_solution_nothing_persisted
    (office : Service.Office) (req : Service.BaselineRequest) (status : String)
    (hP : req.purchase_costs_daily.length = req.planning_horizon_days)
    (hW : min req.num_workers_daily.length req.num_conferences_daily.length =
      req.planning_horizon_days) :
    Service.run_optimization office req (.noSolution status) =
      .stored ("Solver failed to return a solution. Status: " ++ status) [] [] := by
  unfold Service.run_optimization Service.solve
  have hd : ((req.num_workers_daily.zip req.num_conferences_daily).map
      (fun wc => Solver.estimate_demand wc.1 wc.2)).length = req.planning_horizon_days := by
    simp [List.length_zip, hW]
  simp [hP, hd]

/-- Witness for `c7_no_solution_nothing_persisted` at the concrete request
`reqW` with engine status `JobSolveStatus.INFEASIBLE_SOLUTION`. -/
theorem c7_no_solution_witness :
    (Wit.reqW.purchase_costs_daily.length = Wit.reqW.planning_horizon_days ∧
      min Wit.reqW.num_workers_daily.length Wit.reqW.num_conferences_daily.length =
        Wit.reqW.planning_horizon_days) ∧
    Service.run_optimization Wit.officeW Wit.reqW
        (.noSolution "JobSolveStatus.INFEASIBLE_SOLUTION") =
      .stored ("Solver failed to return a solution. Status: " ++
        "JobSolveStatus.INFEASIBLE_SOLUTION") [] [] :=
  ⟨⟨by decide, by decide⟩,
    c7_no_solution_nothing_persisted Wit.officeW Wit.reqW
      "JobSolveStatus.INFEASIBLE_SOLUTION" (by decide) (by decide)⟩

/-- Claim C3: in every feasible solution of the baseline and of the advanced
model, end-of-day inventory satisfies
`I_{b,t} = (1−α_b)·prev + arrivals_{b,t} − D_{b,t}` within `1e-6` kg, where
`prev` is `I0_b` for `t = 0` and `I_{b,t−1}` otherwise (in the baseline,
arrivals are the same-day order `x_t`; in the advanced model they are the
in-horizon deliveries plus the scanned historical deliveries). -/
theorem c3_inventory_identity
    (inp1 : Solver.SolverInput) (a1 : Solver.SolutionV1)
    (inp2 : SolverV2.SolverInputV2) (a2 : SolverV2.SolutionV2)
    (h1 : Solver.FeasibleV1 inp1 a1) (h2 : SolverV2.FeasibleV2 inp2 a2) :
    (∀ t < inp1.T,
      abs (a1.I t - ((1 - inp1.alpha) * (if t = 0 then inp1.I0 else a1.I (t - 1)) +
        a1.x t - Solver.get1 inp1.D t)) ≤ 1 / 1000000) ∧
    (∀ b < inp2.B, ∀ t < inp2.T,
      abs (a2.I b t - ((1 - inp2.alpha) *
          (if t = 0 then inp2.I_0.getD b 0 else a2.I b (t - 1)) +
        SolverV2.deliveriesToday inp2 a2 b t + SolverV2.histDeliveries inp2 b t -
        SolverV2.get2 inp2.Demand b t)) ≤ 1 / 1000000) := by
  constructor
  · intro t ht
    rw [h1.2.1 t ht]
    norm_num
  · intro b hb t ht
    rw [h2.2.1 b hb t ht]
    norm_num

/-- Witness for `c3_inventory_identity` at the concrete feasible pairs
`(inpW1, aW1)` and `(instW, solW)`. -/
theorem c3_inventory_identity_witness :
    (Solver.FeasibleV1 Wit.inpW1 Wit.aW1 ∧ SolverV2.FeasibleV2 Wit.instW Wit.solW) ∧
    ((∀ t < Wit.inpW1.T,
      abs (Wit.aW1.I t - ((1 - Wit.inpW1.alpha) *
          (if t = 0 then Wit.inpW1.I0 else Wit.aW1.I (t - 1)) +
        Wit.aW1.x t - Solver.get1 Wit.inpW1.D t)) ≤ 1 / 1000000) ∧
    (∀ b < Wit.instW.B, ∀ t < Wit.instW.T,
      abs (Wit.solW.I b t - ((1 - Wit.instW.alpha) *
          (if t = 0 then Wit.instW.I_0.getD b 0 else Wit.solW.I b (t - 1)) +
        SolverV2.deliveriesToday Wit.instW Wit.solW b t +
        SolverV2.histDeliveries Wit.instW b t -
        SolverV2.get2 Wit.instW.Demand b t)) ≤ 1 / 1000000)) :=
  ⟨⟨inpW1_feasible, instW_feasible⟩,
    c3_inventory_identity Wit.inpW1 Wit.aW1 Wit.instW Wit.solW inpW1_feasible instW_feasible⟩

/-- Claim C5: in every feasible solution of the advanced model, if the
tier-activation binary `y_threshold[l+1]` equals 1, then the tier-`l` bucket
is filled to its full capacity within `1e-6` kg: `x_0 ≥ Q_1` for `l = 0`,
and `x_l ≥ Q_{l+1} − Q_l` for `1 ≤ l ≤ L−1`. -/
theorem c5_staircase (inp : SolverV2.SolverInputV2) (a : SolverV2.SolutionV2)
    (h : SolverV2.FeasibleV2 inp a) (d b t l : ℕ)
    (hd : d < inp.D) (hb : b < inp.B) (ht : t < inp.T) (hl : l < inp.L)
    (hy : a.y_threshold d b t (l + 1) = 1) :
    (l = 0 → Solver.get1 inp.Q 1 - 1 / 1000000 ≤ a.x_0 d b t) ∧
    (1 ≤ l → Solver.get1 inp.Q (l + 1) - Solver.get1 inp.Q l - 1 / 1000000 ≤
      a.x d b t l) := by
  obtain ⟨-, -, -, -, -, hthr⟩ := h
  obtain ⟨-, -, -, -, h5, h6⟩ := hthr d hd b hb t ht
  constructor
  · intro hl0
    subst hl0
    norm_num at hy
    rw [hy, mul_one] at h5
    linarith
  · intro hl1
    have hmem : l ∈ Finset.Icc 1 (inp.L - 1) := Finset.mem_Icc.mpr ⟨hl1, by omega⟩
    have h7 := h6 l hmem
    rw [hy, mul_one] at h7
    linarith

/-- Witness for `c5_staircase` on `(instT, solT)` at `(d,b,t,l) = (0,0,0,0)`:
threshold 1 is active and the below-threshold bucket is full (`x_0 = Q_1 = 5`). -/
theorem c5_staircase_witness :
    (SolverV2.FeasibleV2 Wit.instT Wit.solT ∧ 0 < Wit.instT.D ∧ 0 < Wit.instT.B ∧
      0 < Wit.instT.T ∧ 0 < Wit.instT.L ∧ Wit.solT.y_threshold 0 0 0 (0 + 1) = 1) ∧
    ((0 = 0 → Solver.get1 Wit.instT.Q 1 - 1 / 1000000 ≤ Wit.solT.x_0 0 0 0) ∧
     (1 ≤ 0 → Solver.get1 Wit.instT.Q (0 + 1) - Solver.get1 Wit.instT.Q 0 - 1 / 1000000 ≤
       Wit.solT.x 0 0 0 0)) :=
  ⟨⟨instT_feasible, by decide, by decide, by decide, by decide, rfl⟩,
    c5_staircase Wit.instT Wit.solT instT_feasible 0 0 0 0 (by decide) (by decide)
      (by decide) (by decide) rfl⟩

/-- Claim C6: in every feasible solution of the correction-mode model, for every
`(d,b,t)` the total correction `Σ_k (r⁺_k + r⁻_k)` over tier indices
`k = 0..L` is at most `R_max[d][b][t]`, and for every tier index the linkage
`x_k = x_kor_k + r⁺_k − r⁻_k` holds exactly, with missing prior-plan entries
defaulting to 0 (the `x_kor` functions embed the dicts read through
`.get(key, 0.0)`). -/
theorem c6_correction_constraints (inp : SolverV2C.SolverInputV2C)
    (a : SolverV2C.SolutionV2C) (h : SolverV2C.FeasibleV2C inp a) (d b t : ℕ)
    (hd : d < inp.D) (hb : b < inp.B) (ht : t < inp.T) :
    (a.r_plus_0 d b t + a.r_minus_0 d b t +
      (Finset.Icc 1 inp.L).sum (fun l => a.r_plus d b t l + a.r_minus d b t l) ≤
      SolverV2C.get3 inp.R_max d b t) ∧
    (a.x_0 d b t = inp.x_kor_0 d b t + a.r_plus_0 d b t - a.r_minus_0 d b t) ∧
    (∀ l ∈ Finset.Icc 1 inp.L,
      a.x d b t l = inp.x_kor d b t l + a.r_plus d b t l - a.r_minus d b t l) := by
  obtain ⟨-, hlink, hcap, -, -⟩ := h
  exact ⟨hcap d hd b hb t ht, (hlink d hd b hb t ht).1, (hlink d hd b hb t ht).2⟩

/-- Witness for `c6_correction_constraints` on `(instC, solC)` at
`(d,b,t) = (0,0,0)`. -/
theorem c6_correction_constraints_witness :
    (SolverV2C.FeasibleV2C Wit.instC Wit.solC ∧ 0 < Wit.instC.D ∧ 0 < Wit.instC.B ∧
      0 < Wit.instC.T) ∧
    ((Wit.solC.r_plus_0 0 0 0 + Wit.solC.r_minus_0 0 0 0 +
      (Finset.Icc 1 Wit.instC.L).sum
        (fun l => Wit.solC.r_plus 0 0 0 l + Wit.solC.r_minus 0 0 0 l) ≤
      SolverV2C.get3 Wit.instC.R_max 0 0 0) ∧
    (Wit.solC.x_0 0 0 0 =
      Wit.instC.x_kor_0 0 0 0 + Wit.solC.r_plus_0 0 0 0 - Wit.solC.r_minus_0 0 0 0) ∧
    (∀ l ∈ Finset.Icc 1 Wit.instC.L,
      Wit.solC.x 0 0 0 l =
        Wit.instC.x_kor 0 0 0 l + Wit.solC.r_plus 0 0 0 l - Wit.solC.r_minus 0 0 0 l)) :=
  ⟨⟨instC_feasible, by decide, by decide, by decide⟩,
    c6_correction_constraints Wit.instC Wit.solC instC_feasible 0 0 0
      (by decide) (by decide) (by decide)⟩

/-- Claim C4, counterexample to the claim as stated: with lead time
`X_{d,b} = 101` and 5 kg committed at placement day `τ = −101` on tier 1
(so `τ + X = 0`), the source's historical scan (`tau ∈ range(-100, 0)`)
contributes 0 to the arrivals of day 0, while the spec's unbounded-`τ` sum
contributes the committed 5 kg: the claim's "no lower bound on how far in
the past τ lies" is false of the code. -/
theorem c4_historical_window_counterexample :
    SolverV2.histDeliveries Wit.c4w 0 0 = 0 ∧
    SpecModel.histArrivalsSpec Wit.c4w 0 0 = 5 ∧
    SolverV2.histDeliveries Wit.c4w 0 0 ≠ SpecModel.histArrivalsSpec Wit.c4w 0 0 := by
  have hgx : SolverV2.getX Wit.c4w.X 0 0 = 101 := rfl
  have h1 : SolverV2.histDeliveries Wit.c4w 0 0 = 0 := by
    simp only [SolverV2.histDeliveries, show Wit.c4w.D = 1 from rfl,
      show Wit.c4w.L = 1 from rfl, hgx, Finset.sum_range_one, Finset.Icc_self,
      Finset.sum_singleton, sum_hist_window]
    norm_num [Finset.mem_Icc]
  have h2 : SpecModel.histArrivalsSpec Wit.c4w 0 0 = 5 := by
    simp only [SpecModel.histArrivalsSpec, show Wit.c4w.D = 1 from rfl,
      show Wit.c4w.L = 1 from rfl, hgx, Finset.sum_range_one, Finset.Icc_self,
      Finset.sum_singleton]
    norm_num [Wit.c4w]
  refine ⟨h1, h2, ?_⟩
  rw [h1, h2]
  norm_num

/-- Claim C4, amended: in both advanced models the historical arrivals of day `t`
at building `b` agree with the spec's unbounded sum over all placement days
`τ < 0` with `τ + X_{d,b} = t` whenever every lead time into `b` satisfies
`X_{d,b} ≤ t + 100` (equivalently, the determined `τ = t − X_{d,b}` is not
older than the scanned window `[-100, -1]`); entries with `τ < −100` are
silently dropped by the scan. -/
theorem c4_historical_window_amended
    (inp : SolverV2.SolverInputV2) (inpc : SolverV2C.SolverInputV2C) (b t bc tc : ℕ)
    (h : ∀ d < inp.D, SolverV2.getX inp.X d b ≤ t + 100)
    (hc : ∀ d < inpc.D, SolverV2.getX inpc.X d bc ≤ tc + 100) :
    SolverV2.histDeliveries inp b t = SpecModel.histArrivalsSpec inp b t ∧
    SolverV2C.histDeliveriesC inpc bc tc = SpecModel.histArrivalsSpecC inpc bc tc := by
  constructor
  · unfold SolverV2.histDeliveries SpecModel.histArrivalsSpec
    refine Finset.sum_congr rfl (fun d hd => ?_)
    refine Finset.sum_congr rfl (fun l _ => ?_)
    rw [sum_hist_window]
    have hX := h d (Finset.mem_range.mp hd)
    refine if_congr ?_ rfl rfl
    rw [Finset.mem_Icc]
    omega
  · unfold SolverV2C.histDeliveriesC SpecModel.histArrivalsSpecC
    refine Finset.sum_congr rfl (fun d hd => ?_)
    rw [sum_hist_window]
    have hX := hc d (Finset.mem_range.mp hd)
    refine if_congr ?_ rfl rfl
    rw [Finset.mem_Icc]
    omega

/-- Witness for `c4_historical_window_amended` on `c4wb` (lead time 1,
3 kg committed at `τ = −1`, tier 1) and `c4wc` (lead time 1, 2 kg committed
at `τ = −1`) at `b = t = 0`. -/
theorem c4_historical_window_witness :
    ((∀ d < Wit.c4wb.D, SolverV2.getX Wit.c4wb.X d 0 ≤ 0 + 100) ∧
     (∀ d < Wit.c4wc.D, SolverV2.getX Wit.c4wc.X d 0 ≤ 0 + 100)) ∧
    (SolverV2.histDeliveries Wit.c4wb 0 0 = SpecModel.histArrivalsSpec Wit.c4wb 0 0 ∧
     SolverV2C.histDeliveriesC Wit.c4wc 0 0 = SpecModel.histArrivalsSpecC Wit.c4wc 0 0) :=
  ⟨⟨by decide, by decide⟩,
    c4_historical_window_amended Wit.c4wb Wit.c4wc 0 0 0 0 (by decide) (by decide)⟩

/-- Claim C8, counterexample to the claim as stated: the input `c8w` has
thresholds `Q = [0, 5, 5]` that are not strictly increasing
(`Q_2 ≤ Q_1`), yet the validation block of `solver_v2.solve` passes — it
checks only array shapes, so no `InvalidInput`-style failure occurs and the
model is built and solved. -/
theorem c8_validation_counterexample :
    SolverV2.validate_v2 Wit.c8w = true ∧
    Solver.get1 Wit.c8w.Q 2 ≤ Solver.get1 Wit.c8w.Q 1 := by
  constructor
  · rfl
  · norm_num [Wit.c8w, Solver.get1]

/-- Claim C8, amended: validation in the advanced solver checks only array
shapes and never inspects threshold values — replacing `Q` by any
same-length list (strictly increasing or not) leaves the validation outcome
unchanged, so non-monotone thresholds pass validation whenever the shapes
do, and the model is built and solved. -/
theorem c8_validation_shape_only (inp : SolverV2.SolverInputV2) (Qnew : List ℚ)
    (hQ : Qnew.length = inp.Q.length) :
    SolverV2.validate_v2 { inp with Q := Qnew } = SolverV2.validate_v2 inp := by
  simp only [SolverV2.validate_v2]
  rw [hQ]

/-- Witness for `c8_validation_shape_only`: replacing the strictly
increasing `Q = [0, 5]` of `instW` by the non-monotone `[5, 5]` of equal
length leaves validation unchanged. -/
theorem c8_validation_shape_only_witness :
    (([(5 : ℚ), 5] : List ℚ).length = Wit.instW.Q.length) ∧
    SolverV2.validate_v2 { Wit.instW with Q := [5, 5] } =
      SolverV2.validate_v2 Wit.instW :=
  ⟨by decide, c8_validation_shape_only Wit.instW [5, 5] (by decide)⟩

/-- Claim C10: in `solver_v2.solve`, historical in-transit entries are read only
for tier indices `l ∈ 1..L` (`for l in range(1, L+1)`), so an `x_hist` entry
keyed with tier index 0 never contributes: overwriting the tier-0 entry of
any key `(d0, b0, τ0)` with any value leaves every day's historical
arrivals, the inventory-balance constraint set, and feasibility of every
assignment unchanged. -/
theorem c10_tier0_history_ignored (inp : SolverV2.SolverInputV2)
    (d0 b0 : ℕ) (t0 : ℤ) (v : ℚ) (a : SolverV2.SolutionV2) :
    (∀ b t, SolverV2.histDeliveries (SolverV2.setHistTier0 inp d0 b0 t0 v) b t =
      SolverV2.histDeliveries inp b t) ∧
    (SolverV2.InvBalanceV2 (SolverV2.setHistTier0 inp d0 b0 t0 v) a ↔
      SolverV2.InvBalanceV2 inp a) ∧
    (SolverV2.FeasibleV2 (SolverV2.setHistTier0 inp d0 b0 t0 v) a ↔
      SolverV2.FeasibleV2 inp a) := by
  have hh : ∀ b t, SolverV2.histDeliveries (SolverV2.setHistTier0 inp d0 b0 t0 v) b t =
      SolverV2.histDeliveries inp b t := by
    intro b t
    unfold SolverV2.histDeliveries SolverV2.setHistTier0
    refine Finset.sum_congr rfl (fun d _ => ?_)
    refine Finset.sum_congr rfl (fun l hl => ?_)
    refine Finset.sum_congr rfl (fun tau _ => ?_)
    have hl1 : 1 ≤ l := (Finset.mem_Icc.mp hl).1
    refine if_congr Iff.rfl ?_ rfl
    show (if d = d0 ∧ b = b0 ∧ tau = t0 ∧ l = 0 then v else inp.x_hist d b tau l) =
      inp.x_hist d b tau l
    exact if_neg (fun hc => by omega)
  have hbal : SolverV2.InvBalanceV2 (SolverV2.setHistTier0 inp d0 b0 t0 v) a ↔
      SolverV2.InvBalanceV2 inp a := by
    unfold SolverV2.InvBalanceV2
    refine forall_congr' (fun b => imp_congr_right (fun hb =>
      forall_congr' (fun t => imp_congr_right (fun ht => ?_))))
    rw [hh b t]
    exact Iff.rfl
  have hfeas : SolverV2.FeasibleV2 (SolverV2.setHistTier0 inp d0 b0 t0 v) a ↔
      SolverV2.FeasibleV2 inp a := by
    unfold SolverV2.FeasibleV2
    rw [hbal]
    exact Iff.rfl
  exact ⟨hh, hbal, hfeas⟩
